import Mathlib

/-!
Shallow embedding of `src/mcp_server_kusto/server.py`: the KustoDatabase
gateway, the query guard and external-table rewrite, the tool catalog, and
the dispatcher `handle_call_tool`. The external Kusto service (SDK client,
network) is abstracted as a function from (database, command text) to either
a primary-result table or an exception message.
-/

namespace KustoServer

/-! ### Python string primitives

Models of the CPython string operations the server uses:
`startswith`, `strip()` (no argument: whitespace), `split("|")[0]`,
`replace(old, new)`. -/

/-- Characters stripped by Python `str.strip()` with no argument
(ASCII range). -/
def pyIsSpace (c : Char) : Bool :=
  c == ' ' || c == '\t' || c == '\n' || c == '\r' || c == '\x0B' || c == '\x0C'

/-- Python `s.strip()` on the character list: drop whitespace from both ends. -/
def stripList (s : List Char) : List Char :=
  ((s.dropWhile pyIsSpace).reverse.dropWhile pyIsSpace).reverse

/-- Python `s.strip()`. -/
def pyStrip (s : String) : String := ⟨stripList s.data⟩

/-- Python `s.startswith(pre)`. -/
def pyStartswith (s pre : String) : Bool := pre.data.isPrefixOf s.data

/-- The guard test `query.startswith(".")` used by both execute paths. -/
def startsWithDot (s : String) : Bool := pyStartswith s "."

/-- Python `s.split("|")[0]`: the characters before the first pipe, or the
whole string when there is no pipe. -/
def splitPipeHead (s : String) : String := ⟨s.data.takeWhile (fun c => c != '|')⟩

/-- Left-to-right, non-overlapping replacement scan of Python
`str.replace` for a nonempty pattern; `fuel` bounds the recursion and is
adequate whenever `fuel ≥ s.length`. -/
def pyReplaceGo (old new : List Char) : Nat → List Char → List Char
  | 0, s => s
  | _ + 1, [] => []
  | fuel + 1, c :: rest =>
      if old.isPrefixOf (c :: rest) then
        new ++ pyReplaceGo old new fuel ((c :: rest).drop old.length)
      else
        c :: pyReplaceGo old new fuel rest

/-- Python `s.replace(old, new)` on character lists. An empty pattern
inserts `new` at every boundary, as CPython does. -/
def pyReplaceL (s old new : List Char) : List Char :=
  if old.isEmpty then new ++ s.flatMap (fun c => c :: new)
  else pyReplaceGo old new s.length s

/-- Python `s.replace(old, new)`. -/
def pyReplace (s old new : String) : String := ⟨pyReplaceL s.data old.data new.data⟩

/-- Python substring test `old in s`, by scanning every start position. -/
def containsSub (s old : List Char) : Bool :=
  match s with
  | [] => old.isEmpty
  | c :: rest => old.isPrefixOf (c :: rest) || containsSub rest old

/-! ### The database gateway (class KustoDatabase)

The remote service is abstracted: given a database name and a command
string it yields either the primary result table
(`response.primary_results[0]`, rows of scalar values rendered as strings)
or an exception message. Each gateway operation returns its value together
with the list of log lines it emits; a swallowed exception yields `none`
(Python's implicit `return None` after the `except` block), and a raised
exception on the execute paths is an `Except.error` carrying the
`ValueError` message. -/

abbrev Row := List String

abbrev Table := List Row

abbrev Service := String → String → Except String Table

/-- `KustoConnectionStringBuilder` outcomes used by `KustoDatabase.__init__`. -/
inductive Kcsb where
  | withNoAuthentication (cluster : String)
  | withAadApplicationKey (cluster clientId clientSecret authorityId : String)
deriving DecidableEq

/-- `KustoDatabase.__init__`: no-authentication builder for `http://`
clusters; otherwise all three credential fields are required, else a
`ValueError` (the spec's `ConfigurationError`). -/
def kustoDatabaseInit (cluster : String)
    (clientId clientSecret authorityId : Option String) : Except String Kcsb :=
  if pyStartswith cluster "http://" then
    .ok (.withNoAuthentication cluster)
  else if clientId.isNone || clientSecret.isNone || authorityId.isNone then
    .error "Client id, client secret and authority id are required"
  else
    .ok (.withAadApplicationKey cluster (clientId.getD "") (clientSecret.getD "")
      (authorityId.getD ""))

/-- `KustoDatabase.list_internal_tables`: run `.show tables`, return the
first column; any exception (including an index error on a short row) is
caught and logged, yielding `None`. -/
def list_internal_tables (svc : Service) (database : String) :
    Option (List String) × List String :=
  match svc database ".show tables" with
  | .ok table =>
      if table.all (fun row => !row.isEmpty) then
        (some (table.map (fun row => row.headD "")), [])
      else
        (none, ["Error listing tables: list index out of range"])
  | .error e => (none, ["Error listing tables: " ++ e])

/-- `KustoDatabase.list_external_tables`: same shape over
`.show external tables`. -/
def list_external_tables (svc : Service) (database : String) :
    Option (List String) × List String :=
  match svc database ".show external tables" with
  | .ok table =>
      if table.all (fun row => !row.isEmpty) then
        (some (table.map (fun row => row.headD "")), [])
      else
        (none, ["Error listing external tables: list index out of range"])
  | .error e => (none, ["Error listing external tables: " ++ e])

/-- `KustoDatabase.list_materialized_views`: same shape over
`.show materialized-views`. -/
def list_materialized_views (svc : Service) (database : String) :
    Option (List String) × List String :=
  match svc database ".show materialized-views" with
  | .ok table =>
      if table.all (fun row => !row.isEmpty) then
        (some (table.map (fun row => row.headD "")), [])
      else
        (none, ["Error listing materialized views: list index out of range"])
  | .error e => (none, ["Error listing materialized views: " ++ e])

/-- `KustoDatabase.execute_query_internal_table`: debug-log the query,
raise `ValueError("Should not use management commands")` when it starts
with `.`, otherwise execute it; service failures are caught, logged and
swallowed to `None`. -/
def execute_query_internal_table (svc : Service) (database query : String) :
    Except String (Option Table) × List String :=
  if startsWithDot query then
    (.error "Should not use management commands", ["Executing query: " ++ query])
  else
    match svc database query with
    | .ok table => (.ok (some table), ["Executing query: " ++ query])
    | .error e =>
        (.ok none, ["Executing query: " ++ query, "Error executing query: " ++ e])

/-- The textual wrapper `external_table("<name>")`. -/
def extWrap (t : String) : String := "external_table(\"" ++ t ++ "\")"

/-- The external-table rewrite of `execute_query_external_table`:
`table_name = query.split("|")[0].strip()` and then
`query.replace(table_name, 'external_table("table_name")')`. -/
def externalRewrite (query : String) : String :=
  let tableName := pyStrip (splitPipeHead query)
  pyReplace query tableName (extWrap tableName)

/-- `KustoDatabase.execute_query_external_table`: like the internal path
but executing the rewritten query. -/
def execute_query_external_table (svc : Service) (database query : String) :
    Except String (Option Table) × List String :=
  if startsWithDot query then
    (.error "Should not use management commands", ["Executing query: " ++ query])
  else
    match svc database (externalRewrite query) with
    | .ok table => (.ok (some table), ["Executing query: " ++ query])
    | .error e =>
        (.ok none, ["Executing query: " ++ query, "Error executing query: " ++ e])

/-- `KustoDatabase.retrieve_internal_table_schema`: run
`"{table} | getschema"`; failures are caught, logged, swallowed. -/
def retrieve_internal_table_schema (svc : Service) (database table : String) :
    Option Table × List String :=
  match svc database (table ++ " | getschema") with
  | .ok t => (some t, [])
  | .error e => (none, ["Error retrieving table schema: " ++ e])

/-- `KustoDatabase.retrieve_external_table_schema`: run
`external_table("{table}") | getschema`; failures are caught, logged,
swallowed. -/
def retrieve_external_table_schema (svc : Service) (database table : String) :
    Option Table × List String :=
  match svc database ("external_table(\"" ++ table ++ "\") | getschema") with
  | .ok t => (some t, [])
  | .error e => (none, ["Error retrieving table schema: " ++ e])

/-! ### The tool catalog (`tool_list`) -/

/-- An `mcp.types.Tool` descriptor as the server builds it: name,
description, and the input schema's properties (argument name and declared
type) and required-argument list. -/
structure Tool where
  name : String
  description : String
  properties : List (String × String)
  required : List String
deriving DecidableEq

/-- The seven descriptors of `tool_list`, in source order. -/
def tool_list : List Tool :=
  [⟨"list_internal_tables", "List all internal tables in the database",
    [("database", "string")], ["database"]⟩,
   ⟨"list_external_tables", "List all external tables in the database",
    [("database", "string")], ["database"]⟩,
   ⟨"list_materialized_views", "List all materialized views in the database",
    [("database", "string")], ["database"]⟩,
   ⟨"execute_query_internal_table",
    "Execute a kql query to internal table or materialized view",
    [("database", "string"), ("query", "string")], ["database", "query"]⟩,
   ⟨"execute_query_external_table", "Execute a kql query to external table",
    [("database", "string"), ("query", "string")], ["database", "query"]⟩,
   ⟨"retrieve_internal_table_schema",
    "Get the schema of a table or materialized view",
    [("database", "string"), ("table", "string")], ["database", "table"]⟩,
   ⟨"retrieve_external_table_schema", "Get the schema of an external table",
    [("database", "string"), ("table", "string")], ["database", "table"]⟩]

/-- `tool_name_list = [tool.name for tool in tool_list]`. -/
def tool_name_list : List String := tool_list.map Tool.name

/-- `handle_list_tools`: returns `tool_list` unconditionally; the closure
captures no mutable state, so the result is a constant. -/
def handle_list_tools : List Tool := tool_list

/-! ### The dispatcher (`handle_call_tool`) -/

/-- The argument mapping of a call; Python's `dict[str, Any] | None` is an
optional association list (all values the handler reads are strings). -/
abbrev Args := List (String × String)

/-- What `handle_call_tool` does: raise a `ValueError` with a message,
return a list of `TextContent` texts, or fall off the end of the function
(Python's implicit `return None`). -/
inductive CallOutcome where
  | raised (msg : String)
  | output (items : List String)
  | noReturn
deriving DecidableEq

/-- Python `repr` of a string, as used inside `str` of a list
(plain quoting; escape corner cases do not arise in the development). -/
def pyReprStr (s : String) : String := "'" ++ s ++ "'"

/-- Python `str` of a list of strings. -/
def pyStrList (xs : List String) : String :=
  "[" ++ String.intercalate ", " (xs.map pyReprStr) ++ "]"

/-- Python `str(results)` for the list operations, where `results` is
either a list of names or `None`. -/
def pyStrOptList : Option (List String) → String
  | none => "None"
  | some xs => pyStrList xs

/-- Python `str` of one result row, modelled as the list rendering of its
scalar values. -/
def pyStrRow (r : Row) : String :=
  "[" ++ String.intercalate ", " (r.map pyReprStr) ++ "]"

/-- Python `str(results)` for the query/schema operations, where
`results` is a primary-result table or `None`. -/
def pyStrOptTable : Option Table → String
  | none => "None"
  | some t => "[" ++ String.intercalate ", " (t.map pyStrRow) ++ "]"

/-- `handle_call_tool(name, arguments)`: the full dispatch chain of the
source, including the unreachable `retrieve_table_schema` branch and the
fall-through (implicit `None`) for any catalog name no branch matches.
Returns the outcome paired with the log lines emitted downstream. -/
def handle_call_tool (svc : Service) (name : String) (arguments : Option Args) :
    CallOutcome × List String :=
  if name ∉ tool_name_list then
    (.raised ("Unknown tool: " ++ name), [])
  else
    match arguments with
    | none => (.raised "Missing database argument", [])
    | some args =>
      if args.isEmpty ∨ args.lookup "database" = none then
        (.raised "Missing database argument", [])
      else
        let database := (args.lookup "database").getD ""
        if name = "list_internal_tables" then
          let (results, logs) := list_internal_tables svc database
          (.output [pyStrOptList results], logs)
        else if name = "list_external_tables" then
          let (results, logs) := list_external_tables svc database
          (.output [pyStrOptList results], logs)
        else if name = "list_materialized_views" then
          let (results, logs) := list_materialized_views svc database
          (.output [pyStrOptList results], logs)
        else if name = "execute_query_internal_table" then
          match args.lookup "query" with
          | none => (.raised "Missing database or query argument", [])
          | some query =>
            match execute_query_internal_table svc database query with
            | (.error m, logs) => (.raised m, logs)
            | (.ok results, logs) => (.output [pyStrOptTable results], logs)
        else if name = "execute_query_external_table" then
          match args.lookup "query" with
          | none => (.raised "Missing database or query argument", [])
          | some query =>
            match execute_query_external_table svc database query with
            | (.error m, logs) => (.raised m, logs)
            | (.ok results, logs) => (.output [pyStrOptTable results], logs)
        else if name = "retrieve_table_schema" then
          match args.lookup "table" with
          | none => (.raised "Missing database or table argument", [])
          | some table =>
            let (results, logs) := retrieve_internal_table_schema svc database table
            (.output [pyStrOptTable results], logs)
        else if name = "retrieve_external_table_schema" then
          match args.lookup "table" with
          | none => (.raised "Missing database or table argument", [])
          | some table =>
            let (results, logs) := retrieve_external_table_schema svc database table
            (.output [pyStrOptTable results], logs)
        else
          (.noReturn, [])

/-- A service that echoes the command it received as a one-cell table;
used to observe which command text reaches the service. -/
def echoSvc : Service := fun _ q => .ok [[q]]

/-- A service that always fails with a fixed message. -/
def downSvc : Service := fun _ _ => .error "boom"

/-! ### Helper lemmas on the string primitives -/

theorem isPrefixOf_self_append : ∀ (l s : List Char), l.isPrefixOf (l ++ s) = true
  | [], _ => by simp [List.isPrefixOf]
  | c :: t, s => by
      simp only [List.cons_append, List.isPrefixOf_cons₂_self]
      exact isPrefixOf_self_append t s

theorem containsSub_cons (c : Char) (rest old : List Char) :
    containsSub (c :: rest) old = (old.isPrefixOf (c :: rest) || containsSub rest old) :=
  rfl

/-- The replacement scan leaves a string untouched when the (nonempty)
pattern occurs nowhere in it, for any adequate fuel. -/
theorem pyReplaceGo_of_not_contains (old new : List Char) :
    ∀ (s : List Char) (fuel : Nat), containsSub s old = false →
      s.length ≤ fuel → pyReplaceGo old new fuel s = s
  | [], fuel, _, _ => by cases fuel <;> rfl
  | c :: rest, fuel, hc, hf => by
      rw [containsSub_cons, Bool.or_eq_false_iff] at hc
      cases fuel with
      | zero => simp at hf
      | succ f =>
          simp only [pyReplaceGo, hc.1, Bool.false_eq_true, if_false, List.cons.injEq,
            true_and]
          exact pyReplaceGo_of_not_contains old new rest f hc.2
            (Nat.le_of_succ_le_succ (by simpa using hf))

/-- Python replace of a nonempty pattern standing at the front of the
string and nowhere else: exactly the front is replaced. -/
theorem pyReplaceL_append_of_not_contains (old new s : List Char) (hold : old ≠ [])
    (hs : containsSub s old = false) :
    pyReplaceL (old ++ s) old new = new ++ s := by
  obtain ⟨a, t, rfl⟩ : ∃ a t, old = a :: t := by
    cases old with
    | nil => exact absurd rfl hold
    | cons a t => exact ⟨a, t, rfl⟩
  have h1 : pyReplaceL ((a :: t) ++ s) (a :: t) new
      = pyReplaceGo (a :: t) new ((t ++ s).length + 1) (a :: (t ++ s)) := by
    simp [pyReplaceL]
  rw [h1]
  have hpre : (a :: t).isPrefixOf (a :: (t ++ s)) = true := by
    simp
  simp only [pyReplaceGo]
  rw [if_pos hpre]
  have hdrop : (a :: (t ++ s)).drop (a :: t).length = s := by
    simp
  rw [hdrop, pyReplaceGo_of_not_contains (a :: t) new s (t ++ s).length hs
    (by simp [List.length_append])]

theorem takeWhile_append_of {p : Char → Bool} :
    ∀ {l₁ : List Char} (l₂ : List Char), (∀ c ∈ l₁, p c = true) →
      (l₁ ++ l₂).takeWhile p = l₁ ++ l₂.takeWhile p
  | [], _, _ => rfl
  | a :: t, l₂, h => by
      have ha : p a = true := h a (List.mem_cons_self a t)
      simp only [List.cons_append, List.takeWhile_cons, ha, if_true]
      rw [takeWhile_append_of l₂ (fun c hc => h c (List.mem_cons_of_mem a hc))]

theorem dropWhile_of_forall_neg {p : Char → Bool} :
    ∀ {l : List Char}, (∀ c ∈ l, p c = false) → l.dropWhile p = l
  | [], _ => rfl
  | a :: t, h => by
      rw [List.dropWhile_cons_of_neg]
      simp [h a (List.mem_cons_self a t)]

/-! ### Claim theorems -/

/-- C1 (counterexample): the guard checks `query.startswith(".")` on the raw
text, so the query `" .show tables"` — whose trimmed form starts with `.` —
is not rejected on the internal execution path: it reaches the service,
which here echoes the command it was sent. -/
theorem c1_counterexample :
    startsWithDot (pyStrip " .show tables") = true ∧
    (execute_query_internal_table echoSvc "db" " .show tables").1
      = .ok (some [[" .show tables"]]) := by
  exact ⟨by decide, rfl⟩

/-- C1 (amended): every query whose raw (untrimmed) text starts with `.` is
rejected with the ForbiddenCommand error (`ValueError("Should not use
management commands")`) on both execution paths, before any service call.
A query with leading whitespace before the dot is not rejected. -/
theorem c1_amended (svc : Service) (db q : String) (h : startsWithDot q = true) :
    (execute_query_internal_table svc db q).1
      = .error "Should not use management commands" ∧
    (execute_query_external_table svc db q).1
      = .error "Should not use management commands" := by
  constructor <;>
    simp [execute_query_internal_table, execute_query_external_table, h]

/-- C1 witness: the guard fires on `".show tables"` on both paths. -/
theorem c1_witness :
    startsWithDot ".show tables" = true ∧
    (execute_query_internal_table downSvc "db" ".show tables").1
      = .error "Should not use management commands" ∧
    (execute_query_external_table downSvc "db" ".show tables").1
      = .error "Should not use management commands" :=
  ⟨by decide, (c1_amended downSvc "db" ".show tables" (by decide)).1,
   (c1_amended downSvc "db" ".show tables" (by decide)).2⟩

/-- C5: `KustoDatabase.__init__` — an `http://` endpoint yields the
no-authentication configuration whatever the credentials; any other
endpoint fails with the configuration error when a credential field is
absent, and otherwise yields the application-credential configuration. -/
theorem c5_thm (cluster : String) (clientId clientSecret authorityId : Option String) :
    (pyStartswith cluster "http://" = true →
      kustoDatabaseInit cluster clientId clientSecret authorityId
        = .ok (.withNoAuthentication cluster)) ∧
    (pyStartswith cluster "http://" = false →
      (clientId = none ∨ clientSecret = none ∨ authorityId = none) →
      kustoDatabaseInit cluster clientId clientSecret authorityId
        = .error "Client id, client secret and authority id are required") ∧
    (∀ a b c, pyStartswith cluster "http://" = false →
      clientId = some a → clientSecret = some b → authorityId = some c →
      kustoDatabaseInit cluster clientId clientSecret authorityId
        = .ok (.withAadApplicationKey cluster a b c)) := by
  refine ⟨fun h => ?_, fun h hmiss => ?_, fun a b c h ha hb hc => ?_⟩
  · simp [kustoDatabaseInit, h]
  · rcases hmiss with rfl | rfl | rfl <;> simp [kustoDatabaseInit, h]
  · subst ha; subst hb; subst hc; simp [kustoDatabaseInit, h]

/-- C5 witness: the three configuration outcomes at concrete endpoints. -/
theorem c5_witness :
    kustoDatabaseInit "http://localhost:8080" none none none
      = .ok (.withNoAuthentication "http://localhost:8080") ∧
    kustoDatabaseInit "https://cluster.kusto.windows.net" none none none
      = .error "Client id, client secret and authority id are required" ∧
    kustoDatabaseInit "https://cluster.kusto.windows.net"
        (some "app") (some "secret") (some "tenant")
      = .ok (.withAadApplicationKey "https://cluster.kusto.windows.net"
          "app" "secret" "tenant") :=
  ⟨(c5_thm "http://localhost:8080" none none none).1 (by decide),
   (c5_thm "https://cluster.kusto.windows.net" none none none).2.1 (by decide)
     (Or.inl rfl),
   (c5_thm "https://cluster.kusto.windows.net" (some "app") (some "secret")
     (some "tenant")).2.2 "app" "secret" "tenant" (by decide) rfl rfl rfl⟩

/-- C6: a call whose name is not in the catalog raises
`ValueError("Unknown tool: ...")` whatever the arguments, emitting no
output and no logs. -/
theorem c6_thm (svc : Service) (name : String) (arguments : Option Args)
    (h : name ∉ tool_name_list) :
    handle_call_tool svc name arguments = (.raised ("Unknown tool: " ++ name), []) := by
  simp [handle_call_tool, h]

/-- C6 witness: the name the dead dispatch branch tests,
`retrieve_table_schema`, is itself not in the catalog and is rejected even
with a complete argument mapping. -/
theorem c6_witness :
    ("retrieve_table_schema" ∉ tool_name_list) ∧
    handle_call_tool echoSvc "retrieve_table_schema"
        (some [("database", "db"), ("table", "T")])
      = (.raised ("Unknown tool: " ++ "retrieve_table_schema"), []) :=
  ⟨by decide,
   c6_thm echoSvc "retrieve_table_schema" (some [("database", "db"), ("table", "T")])
     (by decide)⟩

/-- C7: for every catalog operation, a call whose argument mapping is
absent or has no `database` key raises
`ValueError("Missing database argument")`. -/
theorem c7_thm (svc : Service) (name : String) (arguments : Option Args)
    (hname : name ∈ tool_name_list)
    (hargs : arguments = none ∨
      ∃ args, arguments = some args ∧ args.lookup "database" = none) :
    (handle_call_tool svc name arguments).1 = .raised "Missing database argument" := by
  rcases hargs with rfl | ⟨args, rfl, hlk⟩
  · simp [handle_call_tool, hname]
  · simp [handle_call_tool, hname, hlk]

/-- C7 witness: `list_internal_tables` without arguments, and
`execute_query_internal_table` with a `query` but no `database`. -/
theorem c7_witness :
    ("list_internal_tables" ∈ tool_name_list) ∧
    (handle_call_tool echoSvc "list_internal_tables" none).1
      = .raised "Missing database argument" ∧
    (handle_call_tool echoSvc "execute_query_internal_table"
        (some [("query", "T | take 1")])).1
      = .raised "Missing database argument" :=
  ⟨by decide,
   c7_thm echoSvc "list_internal_tables" none (by decide) (Or.inl rfl),
   c7_thm echoSvc "execute_query_internal_table" (some [("query", "T | take 1")])
     (by decide) (Or.inr ⟨[("query", "T | take 1")], rfl, by decide⟩)⟩

/-- C9: listing operations returns exactly the seven descriptors, in
source order, each with its declared required-argument set; the result is
a constant, so it is independent of prior calls. -/
theorem c9_thm :
    handle_list_tools.length = 7 ∧
    handle_list_tools.map Tool.name
      = ["list_internal_tables", "list_external_tables", "list_materialized_views",
         "execute_query_internal_table", "execute_query_external_table",
         "retrieve_internal_table_schema", "retrieve_external_table_schema"] ∧
    handle_list_tools.map Tool.required
      = [["database"], ["database"], ["database"], ["database", "query"],
         ["database", "query"], ["database", "table"], ["database", "table"]] :=
  ⟨rfl, rfl, rfl⟩

/-- C2 (code evaluation): `retrieve_internal_table_schema` is advertised in
the catalog, yet a call to it with both required arguments matches no
dispatch branch (the dispatcher tests the name `retrieve_table_schema`
instead) and falls off the end of the handler, returning Python `None`
rather than an output item. -/
theorem c2_code_eval :
    ("retrieve_internal_table_schema" ∈ tool_name_list) ∧
    (handle_call_tool echoSvc "retrieve_internal_table_schema"
      (some [("database", "db"), ("table", "T")])).1 = .noReturn := by
  exact ⟨by decide, by decide⟩

/-- C4 (code evaluation): a call to the catalog operation
`retrieve_internal_table_schema` with `database` present and `table`
absent does not raise the missing-argument error: no dispatch branch
matches the name, so the handler falls through and returns Python `None`. -/
theorem c4_code_eval :
    ("retrieve_internal_table_schema" ∈ tool_name_list) ∧
    (handle_call_tool echoSvc "retrieve_internal_table_schema"
      (some [("database", "db")])).1 = .noReturn ∧
    (handle_call_tool echoSvc "retrieve_internal_table_schema"
      (some [("database", "db")])).1 ≠ .raised "Missing database or table argument" := by
  refine ⟨by decide, by decide, by decide⟩

/-- C3 (counterexample): the rewrite is a blind whole-string replace, so
for the table name `x` in `"x | where x > 1"` both occurrences of `x` are
replaced, not only the leading table reference. -/
theorem c3_counterexample :
    externalRewrite "x | where x > 1"
        = "external_table(\"x\") | where external_table(\"x\") > 1" ∧
    externalRewrite "x | where x > 1" ≠ "external_table(\"x\") | where x > 1" := by
  exact ⟨rfl, by decide⟩

/-- C3 (amended): for every table name `T` that is a nonempty string of
non-whitespace, non-pipe characters and does not occur as a substring of
the query tail `" | where x > 1"`, the external rewrite of
`"T | where x > 1"` is exactly `external_table("T") | where x > 1`. -/
theorem c3_amended (T : String) (hne : T.data ≠ [])
    (hchars : ∀ c ∈ T.data, pyIsSpace c = false ∧ c ≠ '|')
    (htail : containsSub (" | where x > 1").data T.data = false)
    (_hdot : startsWithDot (T ++ " | where x > 1") = false) :
    externalRewrite (T ++ " | where x > 1") = extWrap T ++ " | where x > 1" := by
  have hqdata : (T ++ " | where x > 1").data = T.data ++ (" | where x > 1").data :=
    String.data_append T " | where x > 1"
  have htake : (T.data ++ (" | where x > 1").data).takeWhile (fun c => c != '|')
      = T.data ++ [' '] := by
    rw [takeWhile_append_of (" | where x > 1").data
      (fun c hc => by simp [bne_iff_ne, (hchars c hc).2])]
    rfl
  have hstrip : stripList (T.data ++ [' ']) = T.data := by
    obtain ⟨x, xs, hx⟩ : ∃ x xs, T.data = x :: xs := by
      cases hT : T.data with
      | nil => exact absurd hT hne
      | cons x xs => exact ⟨x, xs, rfl⟩
    have hdrop1 : (T.data ++ [' ']).dropWhile pyIsSpace = T.data ++ [' '] := by
      rw [hx, List.cons_append, List.dropWhile_cons_of_neg]
      simp [(hchars x (by rw [hx]; exact List.mem_cons_self x xs)).1]
    have hrev : (T.data ++ [' ']).reverse = ' ' :: T.data.reverse := by
      simp
    have hdrop2 : (' ' :: T.data.reverse).dropWhile pyIsSpace = T.data.reverse := by
      rw [List.dropWhile_cons_of_pos (by decide)]
      exact dropWhile_of_forall_neg
        (fun c hc => (hchars c (List.mem_reverse.mp hc)).1)
    rw [stripList, hdrop1, hrev, hdrop2, List.reverse_reverse]
  have hname : pyStrip (splitPipeHead (T ++ " | where x > 1")) = T := by
    apply String.ext
    show stripList (splitPipeHead (T ++ " | where x > 1")).data = T.data
    show stripList ((T ++ " | where x > 1").data.takeWhile (fun c => c != '|')) = T.data
    rw [hqdata, htake, hstrip]
  show pyReplace (T ++ " | where x > 1")
      (pyStrip (splitPipeHead (T ++ " | where x > 1")))
      (extWrap (pyStrip (splitPipeHead (T ++ " | where x > 1"))))
    = extWrap T ++ " | where x > 1"
  rw [hname]
  apply String.ext
  show pyReplaceL (T ++ " | where x > 1").data T.data (extWrap T).data
    = (extWrap T ++ " | where x > 1").data
  rw [hqdata, String.data_append,
    pyReplaceL_append_of_not_contains T.data (extWrap T).data
      (" | where x > 1").data hne htail]

/-- C3 witness: the amended rewrite at the table name `Logs`. -/
theorem c3_witness :
    externalRewrite "Logs | where x > 1"
      = "external_table(\"Logs\") | where x > 1" := by
  have h := c3_amended "Logs" (by decide)
    (by decide)
    (by decide) (by decide)
  simpa using h

/-- C8: for every gateway operation, when the service call fails the
exception is caught at the gateway, an error line is logged, and the
operation yields `None` (for the execute paths: a normal return of `None`,
not a raised error), so no distinguishable failure reaches the
dispatcher. -/
theorem c8_thm (svc : Service) (emsg : String → String → String)
    (hfail : ∀ d c, svc d c = .error (emsg d c))
    (db q t : String) (hq : startsWithDot q = false) :
    list_internal_tables svc db
      = (none, ["Error listing tables: " ++ emsg db ".show tables"]) ∧
    list_external_tables svc db
      = (none, ["Error listing external tables: " ++ emsg db ".show external tables"]) ∧
    list_materialized_views svc db
      = (none,
         ["Error listing materialized views: " ++ emsg db ".show materialized-views"]) ∧
    execute_query_internal_table svc db q
      = (.ok none, ["Executing query: " ++ q, "Error executing query: " ++ emsg db q]) ∧
    execute_query_external_table svc db q
      = (.ok none, ["Executing query: " ++ q,
          "Error executing query: " ++ emsg db (externalRewrite q)]) ∧
    retrieve_internal_table_schema svc db t
      = (none, ["Error retrieving table schema: " ++ emsg db (t ++ " | getschema")]) ∧
    retrieve_external_table_schema svc db t
      = (none, ["Error retrieving table schema: "
          ++ emsg db ("external_table(\"" ++ t ++ "\") | getschema")]) := by
  refine ⟨?_, ?_, ?_, ?_, ?_, ?_, ?_⟩ <;>
    simp [list_internal_tables, list_external_tables, list_materialized_views,
      execute_query_internal_table, execute_query_external_table,
      retrieve_internal_table_schema, retrieve_external_table_schema, hfail, hq]

/-- C8 witness: every gateway operation against the always-failing service
swallows the failure into `None` plus a log line. -/
theorem c8_witness :
    list_internal_tables downSvc "db" = (none, ["Error listing tables: boom"]) ∧
    list_external_tables downSvc "db"
      = (none, ["Error listing external tables: boom"]) ∧
    list_materialized_views downSvc "db"
      = (none, ["Error listing materialized views: boom"]) ∧
    execute_query_internal_table downSvc "db" "T | take 1"
      = (.ok none, ["Executing query: T | take 1", "Error executing query: boom"]) ∧
    execute_query_external_table downSvc "db" "T | take 1"
      = (.ok none, ["Executing query: T | take 1", "Error executing query: boom"]) ∧
    retrieve_internal_table_schema downSvc "db" "T"
      = (none, ["Error retrieving table schema: boom"]) ∧
    retrieve_external_table_schema downSvc "db" "T"
      = (none, ["Error retrieving table schema: boom"]) :=
  c8_thm downSvc (fun _ _ => "boom") (fun _ _ => rfl) "db" "T | take 1" "T" (by decide)

/-- C10: on a query with no pipe character, the rewrite is still defined:
the table name is the whole trimmed query text, and the result is the
Python replace of that text by its `external_table("...")` wrapping over
the entire query. -/
theorem c10_thm (q : String) (_hdot : startsWithDot q = false)
    (hpipe : '|' ∉ q.data) :
    externalRewrite q = pyReplace q (pyStrip q) (extWrap (pyStrip q)) := by
  have htake : q.data.takeWhile (fun c => c != '|') = q.data := by
    rw [List.takeWhile_eq_self_iff]
    intro c hc
    simp [bne_iff_ne]
    intro hceq
    exact hpipe (hceq ▸ hc)
  show pyReplace q (pyStrip (splitPipeHead q)) (extWrap (pyStrip (splitPipeHead q)))
    = pyReplace q (pyStrip q) (extWrap (pyStrip q))
  have hhead : splitPipeHead q = q := by
    apply String.ext
    show (q.data.takeWhile (fun c => c != '|')) = q.data
    exact htake
  rw [hhead]

/-- C10 witness: a bare table name with no pipe is wrapped whole. -/
theorem c10_witness :
    startsWithDot "MyTable" = false ∧ ('|' ∉ "MyTable".data) ∧
    externalRewrite "MyTable"
      = pyReplace "MyTable" (pyStrip "MyTable") (extWrap (pyStrip "MyTable")) ∧
    externalRewrite "MyTable" = "external_table(\"MyTable\")" :=
  ⟨by decide, by decide, c10_thm "MyTable" (by decide) (by decide), by decide⟩

end KustoServer
